import Mathlib

/-!
Shallow embedding of the concurrent-orchestration core of the
`esp32-ssd1306-solana` repository (files `src/http.rs`, `src/main.rs`,
`src/display.rs`), together with theorems settling the specification
claims about retry behaviour, fallback policy, rendering diffs, button
debouncing and lock usage.

Conventions:
* Rust `u64` values are modelled as `Nat` (no arithmetic in the embedded
  code ever overflows a `u64`, the only arithmetic is `num_tx / 60`).
* Rust `f64` JSON payloads are modelled as `Rat`; the code never computes
  with them, it only passes them through (`as_f64().unwrap_or(0.0)`).
* A remote endpoint's behaviour over successive invocations of
  `http_request` is an environment `outcomes : Nat → Except HttpErr Json`;
  `outcomes n` is the result of the `n`-th underlying remote call.
* Each fetch function returns a `FetchTrace`: its Rust return value plus
  the number of underlying remote calls it performed and the list of
  retry sleeps (in milliseconds) it executed between failed attempts.
-/

/-- Shallow model of `serde_json::Value`.  Numbers are rationals so both
`u64`/`i64` and `f64` payloads are representable. -/
inductive Json where
  | null : Json
  | bool (b : Bool) : Json
  | num (q : ℚ) : Json
  | str (s : String) : Json
  | arr (xs : List Json) : Json
  | obj (fields : List (String × Json)) : Json

namespace Json

/-- `value[key]` on a `serde_json::Value`: field lookup that yields
`Null` when the value is not an object or the key is absent. -/
def getField : Json → String → Json
  | obj fields, key =>
    match fields.find? (fun p => p.1 == key) with
    | some p => p.2
    | none => null
  | _, _ => null

/-- `Value::as_array`. -/
def as_array : Json → Option (List Json)
  | arr xs => some xs
  | _ => none

/-- `Value::as_u64`: the number must be a non-negative integer fitting
in 64 bits. -/
def as_u64 : Json → Option Nat
  | num q =>
    if q.den = 1 ∧ 0 ≤ q.num ∧ q.num < 2 ^ 64 then some q.num.toNat else none
  | _ => none

/-- `Value::as_i64`: the number must be an integer in the `i64` range. -/
def as_i64 : Json → Option Int
  | num q =>
    if q.den = 1 ∧ -(2 ^ 63) ≤ q.num ∧ q.num < 2 ^ 63 then some q.num else none
  | _ => none

/-- `Value::as_f64`: any JSON number. -/
def as_f64 : Json → Option ℚ
  | num q => some q
  | _ => none

end Json

/-- Errors produced by the HTTP layer (`http.rs`).  `transport` covers
everything `http_request` can fail with (connection error, non-2xx
status, UTF-8 error, JSON parse error); `noSamples` is the
`ok_or("no performance samples found in the response")` error built in
`get_tps`; `unexpectedAfterRetries` is the unreachable
`"Unexpected failure after retries"` value after the retry loops. -/
inductive HttpErr where
  | transport (msg : String) : HttpErr
  | noSamples : HttpErr
  | unexpectedAfterRetries : HttpErr
deriving DecidableEq, Repr

/-- Result of running one of the fetch functions: the Rust return value,
the number of underlying `http_request` invocations performed, and the
milliseconds slept between failed attempts (in order). -/
structure FetchTrace (α : Type) where
  result : Except HttpErr α
  calls : Nat
  sleeps : List Nat

/-- `max_retries` in `http_sol_request` and `utc_offset_time`. -/
def max_retries : Nat := 3

/-- The fixed retry delay: `Duration::from_millis(1500)`. -/
def retry_delay_ms : Nat := 1500

/-- The retry loop of `Http::http_sol_request` (`http.rs` lines
100–116): `while attempts < max_retries { match http_request(..) {
Ok(value) => return Ok(value["result"]), Err(e) => { attempts += 1;
if attempts < max_retries { sleep(1500 ms) } else { return Err(e) } } } }`.
`fuel` is `max_retries - attempts`, so the `fuel = 0` case is the fall
through to `Err("Unexpected failure after retries")`. -/
def solRequestLoop (outcomes : Nat → Except HttpErr Json) :
    Nat → Nat → FetchTrace Json
  | _, 0 => ⟨.error .unexpectedAfterRetries, 0, []⟩
  | attempts, fuel + 1 =>
    match outcomes attempts with
    | .ok value => ⟨.ok (value.getField "result"), 1, []⟩
    | .error e =>
      if attempts + 1 < max_retries then
        let rest := solRequestLoop outcomes (attempts + 1) fuel
        ⟨rest.result, rest.calls + 1, retry_delay_ms :: rest.sleeps⟩
      else
        ⟨.error e, 1, []⟩

/-- `Http::http_sol_request`: starts the retry loop at `attempts = 0`. -/
def http_sol_request (outcomes : Nat → Except HttpErr Json) : FetchTrace Json :=
  solRequestLoop outcomes 0 max_retries

/-- `Http::get_balance` (`http.rs` lines 121–133): one `http_sol_request`;
on success extract `response["value"].as_u64().unwrap_or(0)`, on error
absorb it and return `Ok(0)`. -/
def get_balance (outcomes : Nat → Except HttpErr Json) : FetchTrace Nat :=
  match http_sol_request outcomes with
  | ⟨.ok response, calls, sleeps⟩ =>
    ⟨.ok (((response.getField "value").as_u64).getD 0), calls, sleeps⟩
  | ⟨.error _, calls, sleeps⟩ => ⟨.ok 0, calls, sleeps⟩

/-- `Http::get_tps` (`http.rs` lines 135–155): one `http_sol_request`; on
success take the first performance sample — propagating the error
`"no performance samples found in the response"` when the result is not
an array or is empty — and return `(slot, numTransactions / 60)`; on
transport error absorb it and return `Ok((0, 0))`. -/
def get_tps (outcomes : Nat → Except HttpErr Json) : FetchTrace (Nat × Nat) :=
  match http_sol_request outcomes with
  | ⟨.ok rps, calls, sleeps⟩ =>
    match rps.as_array >>= fun array => array.get? 0 with
    | none => ⟨.error .noSamples, calls, sleeps⟩
    | some rps_result =>
      let num_tx := ((rps_result.getField "numTransactions").as_u64).getD 0
      let slot := ((rps_result.getField "slot").as_u64).getD 0
      ⟨.ok (slot, num_tx / 60), calls, sleeps⟩
  | ⟨.error _, calls, sleeps⟩ => ⟨.ok (0, 0), calls, sleeps⟩

/-- `Http::get_solana_price` (`http.rs` lines 157–170): a single direct
`http_request` — no retry loop — extracting
`response["solana"]["usd"].as_f64().unwrap_or(0.0)` on success and
absorbing any error into `Ok(0.0)`. -/
def get_solana_price (outcomes : Nat → Except HttpErr Json) : FetchTrace ℚ :=
  match outcomes 0 with
  | .ok response =>
    ⟨.ok ((((response.getField "solana").getField "usd").as_f64).getD 0), 1, []⟩
  | .error _ => ⟨.ok 0, 1, []⟩

/-- Rust `format!("{:02}", n)` on an `i64`: zero-pad to width 2 (the sign
counts toward the width). -/
def format02 (n : Int) : String :=
  if 0 ≤ n ∧ n < 10 then "0" ++ toString n else toString n

/-- The date string built by `utc_offset_time`:
`format!("{}-{:02}-{:02}", year, month, day)`. -/
def dateStringOf (response : Json) : String :=
  let year := ((response.getField "year").as_i64).getD 0
  let month := ((response.getField "month").as_i64).getD 0
  let day := ((response.getField "day").as_i64).getD 0
  toString year ++ "-" ++ format02 month ++ "-" ++ format02 day

/-- The time string built by `utc_offset_time`:
`format!("{:02}:{:02}:{:02}", hour, minute, seconds)`. -/
def timeStringOf (response : Json) : String :=
  let hour := ((response.getField "hour").as_i64).getD 0
  let minute := ((response.getField "minute").as_i64).getD 0
  let seconds := ((response.getField "seconds").as_i64).getD 0
  format02 hour ++ ":" ++ format02 minute ++ ":" ++ format02 seconds

/-- The retry loop of `Http::utc_offset_time` (`http.rs` lines 179–206):
same shape as `solRequestLoop`, but on success it parses the payload and
returns `Ok((time_string, date_string))` — the time string first — and
on exhaustion it propagates the last error. -/
def utcLoop (outcomes : Nat → Except HttpErr Json) :
    Nat → Nat → FetchTrace (String × String)
  | _, 0 => ⟨.error .unexpectedAfterRetries, 0, []⟩
  | attempts, fuel + 1 =>
    match outcomes attempts with
    | .ok response => ⟨.ok (timeStringOf response, dateStringOf response), 1, []⟩
    | .error e =>
      if attempts + 1 < max_retries then
        let rest := utcLoop outcomes (attempts + 1) fuel
        ⟨rest.result, rest.calls + 1, retry_delay_ms :: rest.sleeps⟩
      else
        ⟨.error e, 1, []⟩

/-- `Http::utc_offset_time` (`http.rs` lines 172–209). -/
def utc_offset_time (outcomes : Nat → Except HttpErr Json) :
    FetchTrace (String × String) :=
  utcLoop outcomes 0 max_retries

/-!
Embedding of `main.rs`: the display-section enumeration, the render-loop
thread, the button-watcher threads and the telemetry-poller loop.
-/

/-- `DisplaySection` as used throughout `main.rs`:
`Balance | Tps | SolPrice | QrCode | ScreenOff`.  The shared section
store is created as `Arc::new(Mutex::new(DisplaySection::Balance))`. -/
inductive DisplaySection where
  | Balance : DisplaySection
  | Tps : DisplaySection
  | SolPrice : DisplaySection
  | QrCode : DisplaySection
  | ScreenOff : DisplaySection
deriving DecidableEq, Repr

/-- The initial value of the shared section store (`main.rs` line 81). -/
def display_section_init : DisplaySection := .Balance

/-- The initial value of the shared balance store
(`Arc::new(Mutex::new(0u64))`, `main.rs` line 120). -/
def balance_store_init : Nat := 0

/-- The render loop's local `let mut prev_value = 1u64;`
(`main.rs` line 123). -/
def prev_value_init : Nat := 1

/-- The render loop's tick delay `LOOP_DELAY = 150 ms`. -/
def loop_delay_ms : Nat := 150

/-- Invocations of the external `DisplayModule` renderer made by the
render loop, with the arguments `main.rs` passes: `show_tps((1, 1))` and
`show_sol_usd_price(15f64)` are called with hard-coded values. -/
inductive DrawCall where
  | showBalance (v : Nat) : DrawCall
  | showTps (slotTps : Nat × Nat) : DrawCall
  | showSolPrice (p : ℚ) : DrawCall
  | drawQrCode : DrawCall
  | drawImage : DrawCall
deriving DecidableEq, Repr

/-- Atomic steps of one render-loop iteration, at the granularity the
claims need: lock acquisitions/releases of the three shared mutexes
(section, display module, balance), renderer invocations, LED writes and
the tick sleep.  Lock lifetimes follow Rust temporary/binding scopes:
the guard of `match *section.lock() { .. }` lives until the end of the
`match`, a guard bound by `let` lives to the end of its arm, and the
guard inside `*balance.lock()` is dropped at the end of that statement. -/
inductive Event where
  | lockSection : Event
  | unlockSection : Event
  | lockDisplay : Event
  | unlockDisplay : Event
  | lockBalance : Event
  | unlockBalance : Event
  | render (d : DrawCall) : Event
  | ledWrite (pin : Nat) (high : Bool) : Event
  | sleep (ms : Nat) : Event
deriving DecidableEq, Repr

/-- One iteration of the render-loop thread (`main.rs` lines 127–158),
as the sequence of events it performs, given the current values of the
shared section and balance stores and the thread-local `prev_value`.
Returns the event trace and the new `prev_value`. -/
def renderTickEvents (sec : DisplaySection) (balance prev : Nat) :
    List Event × Nat :=
  match sec with
  | .Balance =>
    let draws : List Event :=
      if prev ≠ balance then [.render (.showBalance balance)] else []
    (.ledWrite 2 true :: .lockSection :: .lockDisplay :: .lockBalance ::
        .unlockBalance :: draws ++
      [.unlockDisplay, .unlockSection, .ledWrite 3 false, .sleep loop_delay_ms],
     if prev ≠ balance then balance else prev)
  | .Tps =>
    ([.ledWrite 2 true, .lockSection, .lockDisplay, .render (.showTps (1, 1)),
       .unlockDisplay, .unlockSection, .ledWrite 3 false, .sleep loop_delay_ms],
     prev)
  | .SolPrice =>
    ([.ledWrite 2 true, .lockSection, .lockDisplay,
       .render (.showSolPrice 15), .unlockDisplay, .unlockSection,
       .ledWrite 3 false, .sleep loop_delay_ms],
     prev)
  | .QrCode =>
    ([.ledWrite 2 true, .lockSection, .lockDisplay, .render .drawQrCode,
       .unlockDisplay, .unlockSection, .ledWrite 3 false, .sleep loop_delay_ms],
     prev)
  | .ScreenOff =>
    ([.ledWrite 2 true, .lockSection, .ledWrite 2 false, .lockDisplay,
       .render .drawImage, .ledWrite 3 true, .unlockDisplay, .unlockSection,
       .ledWrite 3 false, .sleep loop_delay_ms],
     prev)

/-- The renderer invocations of an event trace, in order. -/
def drawCallsOf (events : List Event) : List DrawCall :=
  events.filterMap fun e =>
    match e with
    | .render d => some d
    | _ => none

/-- The renderer invocations of one render-loop iteration. -/
def renderTickDraws (sec : DisplaySection) (balance prev : Nat) :
    List DrawCall :=
  drawCallsOf (renderTickEvents sec balance prev).1

/-- The new `prev_value` after one render-loop iteration. -/
def renderTickPrev (sec : DisplaySection) (balance prev : Nat) : Nat :=
  (renderTickEvents sec balance prev).2

/-- Whether a draw call is an invocation of the renderer for the balance
field (`DisplayModule::show_balance`). -/
def DrawCall.isBalanceDraw : DrawCall → Bool
  | .showBalance _ => true
  | _ => false

/-- Run the render loop over a list of observed `(section, balance)`
store states, one per tick, threading `prev_value`; returns the draw
calls of each tick (in tick order) and the final `prev_value`. -/
def renderRun (prev : Nat) : List (DisplaySection × Nat) → List (List DrawCall) × Nat
  | [] => ([], prev)
  | (sec, balance) :: rest =>
    let draws := renderTickDraws sec balance prev
    let next := renderTickPrev sec balance prev
    let restRun := renderRun next rest
    (draws :: restRun.1, restRun.2)

/-- Scan an event trace tracking the section-lock depth; `true` iff some
renderer invocation happens while the section lock is held. -/
def rendersWhileSectionLockedAux : List Event → Nat → Bool
  | [], _ => false
  | .lockSection :: rest, depth => rendersWhileSectionLockedAux rest (depth + 1)
  | .unlockSection :: rest, depth => rendersWhileSectionLockedAux rest (depth - 1)
  | .render _ :: rest, 0 => rendersWhileSectionLockedAux rest 0
  | .render _ :: _, _ + 1 => true
  | _ :: rest, depth => rendersWhileSectionLockedAux rest depth

/-- `true` iff some renderer invocation in the trace happens while the
section lock is held. -/
def rendersWhileSectionLocked (events : List Event) : Bool :=
  rendersWhileSectionLockedAux events 0

/-- `true` iff the trace invokes the renderer at all. -/
def rendersAtAll (events : List Event) : Bool :=
  events.any fun e =>
    match e with
    | .render _ => true
    | _ => false

/-- The button watchers' cooldown sleep after a detected press:
`Duration::from_millis(5000)`. -/
def cooldown_ms : Nat := 5000

/-- The button watchers' idle polling sleep: `Duration::from_millis(500)`. -/
def idle_poll_ms : Nat := 500

/-- One button-watcher thread (each of `main.rs` lines 163–222; all five
have the identical shape), run against a timed button trace
`pressed t = true` iff the line reads low at millisecond `t`.  Starting
a check at time `t`: if the line is low, write the watcher's section to
the store (recorded as the time of the write) and re-check after
`cooldown_ms`; otherwise re-check after `idle_poll_ms`.  `fuel` bounds
the number of loop iterations modelled; the thread itself loops forever. -/
def watcherWrites (pressed : Nat → Bool) : Nat → Nat → List Nat
  | _, 0 => []
  | t, fuel + 1 =>
    if pressed t then t :: watcherWrites pressed (t + cooldown_ms) fuel
    else watcherWrites pressed (t + idle_poll_ms) fuel

/-- The poller loop's cycle sleep: `Duration::from_millis(5000)`
(`main.rs` line 228). -/
def poll_interval_ms : Nat := 5000

/-- The kinds of remote telemetry the spec's Telemetry Poller covers. -/
inductive FieldKind where
  | balance : FieldKind
  | throughput : FieldKind
  | price : FieldKind
  | clock : FieldKind
deriving DecidableEq, Repr

/-- What one cycle of the poller loop did: which remote fetch kinds it
invoked, which snapshot-store fields it wrote (with the written balance
value), whether it panicked, and the cycle sleep it ended with. -/
structure CycleTrace where
  fetched : List FieldKind
  writes : List (FieldKind × Nat)
  panicked : Bool
  sleepMs : Nat
deriving DecidableEq, Repr

/-- One cycle of the poller loop at the bottom of `main` (`main.rs`
lines 224–229): `let balance_value = http.get_balance(..).unwrap_or(0);
let (slot, tps) = http.get_tps().unwrap(); *balance.lock().unwrap() =
balance_value; sleep(5000 ms);`.  `balOutcomes` and `tpsOutcomes` are
the remote environments seen by the two fetches of this cycle.  When
`get_tps` returns `Err`, the `unwrap()` panics before the balance store
is written. -/
def pollerCycle (balOutcomes tpsOutcomes : Nat → Except HttpErr Json) :
    CycleTrace :=
  let balance_value := (get_balance balOutcomes).result.toOption.getD 0
  match (get_tps tpsOutcomes).result with
  | .error _ =>
    { fetched := [.balance, .throughput], writes := [], panicked := true,
      sleepMs := 0 }
  | .ok _ =>
    { fetched := [.balance, .throughput],
      writes := [(.balance, balance_value)], panicked := false,
      sleepMs := poll_interval_ms }

/-!
Concrete remote environments used by witnesses and counterexamples.
-/

/-- An endpoint that fails every attempt with a transport error. -/
def allFailEnv : Nat → Except HttpErr Json :=
  fun _ => .error (.transport "connection refused")

/-- A `getBalance` endpoint that always answers
`{"jsonrpc":"2.0","result":{"value":42},"id":1}`. -/
def balOkEnv : Nat → Except HttpErr Json :=
  fun _ => .ok (.obj [("result", .obj [("value", .num 42)])])

/-- A `getRecentPerformanceSamples` endpoint that always answers with one
sample of slot `100` and `600` transactions. -/
def tpsOkEnv : Nat → Except HttpErr Json :=
  fun _ =>
    .ok (.obj [("result",
      .arr [.obj [("slot", .num 100), ("numTransactions", .num 600)]])])

/-- A `getRecentPerformanceSamples` endpoint that always answers the
well-formed but empty `{"jsonrpc":"2.0","result":[],"id":1}`. -/
def emptySamplesEnv : Nat → Except HttpErr Json :=
  fun _ => .ok (.obj [("result", .arr [])])

/-- A time-API payload for 2024-05-06 07:08:09. -/
def clockOkPayload : Json :=
  .obj [("year", .num 2024), ("month", .num 5), ("day", .num 6),
    ("hour", .num 7), ("minute", .num 8), ("seconds", .num 9)]

/-- A time-API endpoint that always answers `clockOkPayload`. -/
def clockOkEnv : Nat → Except HttpErr Json :=
  fun _ => .ok clockOkPayload

/-- The button trace of a button held continuously low for the first
`duration` milliseconds and released afterwards. -/
def heldLow (duration : Nat) : Nat → Bool :=
  fun t => decide (t < duration)


/-!
Claim theorems.
-/

/-- Claim C1, counterexample: `get_solana_price` has no retry loop — on an
endpoint that fails every attempt it invokes the underlying remote call
exactly once, not 3 times, so the retry bound does not hold for the
price capability. -/
theorem price_fetch_single_call_counterexample :
    (get_solana_price allFailEnv).calls = 1 ∧ (1 : Nat) ≠ 3 :=
  ⟨rfl, by decide⟩

/-- Claim C1, amended: on an endpoint that fails every attempt, the
balance, throughput and clock fetches each invoke the underlying remote
call exactly 3 times with a 1500 ms sleep between consecutive failed
attempts — balance and throughput then return their fallbacks and clock
propagates the last error — while the price fetch invokes the underlying
call exactly once, sleeps never, and returns its fallback `0.0`. -/
theorem retry_bound_amended (es : Nat → HttpErr) :
    get_balance (fun n => .error (es n)) = ⟨.ok 0, 3, [1500, 1500]⟩ ∧
    get_tps (fun n => .error (es n)) = ⟨.ok (0, 0), 3, [1500, 1500]⟩ ∧
    utc_offset_time (fun n => .error (es n)) = ⟨.error (es 2), 3, [1500, 1500]⟩ ∧
    get_solana_price (fun n => .error (es n)) = ⟨.ok 0, 1, []⟩ :=
  ⟨rfl, rfl, rfl, rfl⟩

/-- Claim C3, counterexample: `get_tps` propagates an error to its caller
when the remote call succeeds but carries no performance sample — on the
well-formed response `{"result": []}` it returns
`Err("no performance samples found in the response")` instead of the
documented fallback `(0, 0)`. -/
theorem tps_error_propagation_counterexample :
    (get_tps emptySamplesEnv).result = .error .noSamples := rfl

/-- Claim C3, amended: the balance and price fetches never propagate an
error for any sequence of remote outcomes; on retry exhaustion balance
returns `0`, throughput returns `(0, 0)` and price returns `0.0`; the
throughput fetch absorbs transport failures but propagates an error when
the remote call succeeds with a result that is not a non-empty array. -/
theorem advisory_fallback_amended (outcomes : Nat → Except HttpErr Json)
    (es : Nat → HttpErr) :
    (∃ b, (get_balance outcomes).result = .ok b) ∧
    (∃ p, (get_solana_price outcomes).result = .ok p) ∧
    get_balance (fun n => .error (es n)) = ⟨.ok 0, 3, [1500, 1500]⟩ ∧
    get_tps (fun n => .error (es n)) = ⟨.ok (0, 0), 3, [1500, 1500]⟩ ∧
    get_solana_price (fun n => .error (es n)) = ⟨.ok 0, 1, []⟩ := by
  refine ⟨?_, ?_, rfl, rfl, rfl⟩
  · unfold get_balance
    rcases http_sol_request outcomes with ⟨res, calls, sleeps⟩
    cases res <;> exact ⟨_, rfl⟩
  · unfold get_solana_price
    cases houtcome : outcomes 0 <;> exact ⟨_, rfl⟩

/-- Claim C4: evaluation at the failing input.  With a throughput
endpoint that answers the well-formed but empty
`{"jsonrpc":"2.0","result":[],"id":1}`, `get_tps` returns `Err`, the
poller's `.unwrap()` panics, and the cycle writes nothing to the
snapshot store — contradicting the never-panic design. -/
theorem poller_panics_on_empty_samples :
    (pollerCycle allFailEnv emptySamplesEnv).panicked = true ∧
    (pollerCycle allFailEnv emptySamplesEnv).writes = [] :=
  ⟨rfl, rfl⟩

/-- Claim C2, counterexample: a poller cycle in which every remote call
succeeds still fetches only the balance and throughput kinds — price and
clock are never fetched — and writes only the balance field into the
snapshot store (the throughput value `(100, 10)` is discarded). -/
theorem poller_cycle_counterexample :
    (pollerCycle balOkEnv tpsOkEnv).fetched = [.balance, .throughput] ∧
    FieldKind.price ∉ ([.balance, .throughput] : List FieldKind) ∧
    FieldKind.clock ∉ ([.balance, .throughput] : List FieldKind) ∧
    (pollerCycle balOkEnv tpsOkEnv).writes = [(.balance, 42)] ∧
    (FieldKind.throughput, 10) ∉ [((FieldKind.balance : FieldKind), (42 : Nat))] := by
  exact ⟨rfl, by decide, by decide, rfl, by decide⟩

/-- Claim C2, amended: each poller cycle invokes the remote fetcher only
for balance and throughput — never for price or clock — discards the
throughput result, writes only the balance field into the snapshot
store, and then sleeps the fixed 5000 ms cycle interval (provided the
throughput fetch does not return an error, in which case the cycle
panics instead, see C4). -/
theorem poller_cycle_amended (balOut tpsOut : Nat → Except HttpErr Json)
    (p : Nat × Nat) (h : (get_tps tpsOut).result = .ok p) :
    pollerCycle balOut tpsOut =
      { fetched := [.balance, .throughput],
        writes := [(.balance, (get_balance balOut).result.toOption.getD 0)],
        panicked := false,
        sleepMs := poll_interval_ms } := by
  unfold pollerCycle
  rw [h]

/-- Witness for C2 amended: both fetches succeed concretely; the cycle
writes balance `42` and nothing else. -/
theorem poller_cycle_amended_witness :
    pollerCycle balOkEnv tpsOkEnv =
      { fetched := [.balance, .throughput],
        writes := [(.balance, (get_balance balOkEnv).result.toOption.getD 0)],
        panicked := false,
        sleepMs := poll_interval_ms } :=
  poller_cycle_amended balOkEnv tpsOkEnv (100, 10) rfl

/-- Claim C8, counterexample: on a successful time-API response for
2024-05-06 07:08:09 the clock fetch returns the pair
`("07:08:09", "2024-05-06")` — the time-of-day string is the FIRST
component and the date string the second, not the order the claim
states. -/
theorem clock_pair_order_counterexample :
    (utc_offset_time clockOkEnv).result = .ok ("07:08:09", "2024-05-06") ∧
    timeStringOf clockOkPayload = "07:08:09" ∧
    dateStringOf clockOkPayload = "2024-05-06" ∧
    ("07:08:09" : String) ≠ "2024-05-06" :=
  ⟨rfl, rfl, rfl, by decide⟩

/-- Claim C8, amended: on any successful remote response the clock fetch
returns `(time_string, date_string)` — the `{:02}:{:02}:{:02}` time of
day first, the `{}-{:02}-{:02}` date second. -/
theorem clock_pair_time_first_amended (outcomes : Nat → Except HttpErr Json)
    (response : Json) (h : outcomes 0 = .ok response) :
    (utc_offset_time outcomes).result =
      .ok (timeStringOf response, dateStringOf response) := by
  have step : utcLoop outcomes 0 (2 + 1) =
      ⟨.ok (timeStringOf response, dateStringOf response), 1, []⟩ := by
    unfold utcLoop
    rw [h]
  show (utcLoop outcomes 0 max_retries).result = _
  rw [show max_retries = 2 + 1 from rfl, step]

/-- Witness for C8 amended: the concrete 2024-05-06 07:08:09 response. -/
theorem clock_pair_time_first_amended_witness :
    (utc_offset_time clockOkEnv).result =
      .ok (timeStringOf clockOkPayload, dateStringOf clockOkPayload) :=
  clock_pair_time_first_amended clockOkEnv clockOkPayload rfl

/-- After a Balance tick showing balance `b`, the render loop's
`prev_value` equals `b`, whether or not it drew. -/
theorem renderTickPrev_balance (b prev : Nat) :
    renderTickPrev .Balance b prev = b := by
  unfold renderTickPrev renderTickEvents
  by_cases h : prev = b <;> simp [h]

/-- Claim C5, counterexample: with the Tps section active and the store
unchanged across two consecutive ticks, the second tick still sends the
renderer a draw call for the throughput field — `show_tps((1, 1))` is
invoked unconditionally every tick. -/
theorem idempotent_render_counterexample :
    renderRun prev_value_init [(.Tps, 7), (.Tps, 7)] =
      ([[.showTps (1, 1)], [.showTps (1, 1)]], prev_value_init) ∧
    ([DrawCall.showTps (1, 1)] : List DrawCall) ≠ [] :=
  ⟨rfl, by simp⟩

/-- Claim C5, amended: only the Balance section renders diff-aware — a
tick that follows a Balance tick with the same balance value issues zero
draw calls — while the Tps and SolPrice sections invoke the renderer
unconditionally on every tick, with the hard-coded arguments `(1, 1)`
and `15.0`. -/
theorem render_diff_amended (b prev : Nat) :
    renderTickDraws .Balance b (renderTickPrev .Balance b prev) = [] ∧
    renderTickDraws .Tps b prev = [.showTps (1, 1)] ∧
    renderTickDraws .SolPrice b prev = [.showSolPrice 15] := by
  refine ⟨?_, rfl, rfl⟩
  rw [renderTickPrev_balance]
  unfold renderTickDraws renderTickEvents drawCallsOf
  simp

/-- Claim C6, counterexample: in the section sequence
`Balance(100) → Tps → Balance(100)` starting from the render loop's
initial `prev_value = 1`, the third tick (the return to Balance) issues
zero draw calls — `prev_value` still holds `100`, it is never reset to a
sentinel when the section changes away. -/
theorem forced_redraw_counterexample :
    (renderRun prev_value_init
      [(.Balance, 100), (.Tps, 100), (.Balance, 100)]).1.getD 2 [.drawImage]
      = [] := rfl

/-- Claim C6, amended: `prev_value` is never reset when the active
section changes; in the sequence `Balance(100) → Tps → Balance(100)` the
balance field is drawn on the first tick, the Tps tick draws the
throughput field, and the return to Balance draws nothing because the
balance value is unchanged — there is no forced redraw on section
return. -/
theorem forced_redraw_amended :
    renderRun prev_value_init [(.Balance, 100), (.Tps, 100), (.Balance, 100)] =
      ([[.showBalance 100], [.showTps (1, 1)], []], 100) := rfl

/-- Once a held-for-`10000 ms` button is released, the watcher never
writes again, whatever fuel remains. -/
theorem watcherWrites_after_release (fuel : Nat) :
    ∀ t : Nat, 10000 ≤ t → watcherWrites (heldLow 10000) t fuel = [] := by
  induction fuel with
  | zero => intro t _; rfl
  | succ fuel ih =>
    intro t ht
    unfold watcherWrites
    rw [if_neg (by simp only [heldLow, decide_eq_true_eq]; omega)]
    exact ih (t + idle_poll_ms) (by simp only [idle_poll_ms]; omega)

/-- Claim C7: a button held continuously low for 10 seconds produces
exactly two section writes, at t = 0 ms and t = 5000 ms — one per
elapsed cooldown period, not one per poll tick — for any number of
watcher loop iterations of at least two. -/
theorem debounce_two_writes (fuel : Nat) (h : 2 ≤ fuel) :
    watcherWrites (heldLow 10000) 0 fuel = [0, 5000] := by
  obtain ⟨k, rfl⟩ : ∃ k, fuel = k + 2 := ⟨fuel - 2, by omega⟩
  show 0 :: 5000 :: watcherWrites (heldLow 10000) 10000 k = [0, 5000]
  rw [watcherWrites_after_release k 10000 le_rfl]

/-- Witness for C7: two loop iterations observed over the 10-second
hold at concrete fuel 25. -/
theorem debounce_two_writes_witness :
    watcherWrites (heldLow 10000) 0 25 = [0, 5000] :=
  debounce_two_writes 25 (by decide)

/-- Claim C9, counterexample: in a Balance tick that draws (balance `5`,
`prev_value` `1`), the renderer invocation happens while the shared
section mutex is held — the guard of `match *display_section.lock() { .. }`
lives until the end of the `match`, so the render loop does not copy the
section out before rendering. -/
theorem render_lock_counterexample :
    rendersWhileSectionLocked (renderTickEvents .Balance 5 1).1 = true := rfl

/-- Claim C9, amended: every renderer invocation the render loop makes
happens while the shared section lock is held (the lock guard of the
`match` scrutinee lives to the end of the `match`), so a button
watcher's section write can be delayed by an in-progress render; the
lock is not released before drawing in any section. -/
theorem render_under_section_lock_amended (sec : DisplaySection) (b prev : Nat) :
    rendersWhileSectionLocked (renderTickEvents sec b prev).1 =
      rendersAtAll (renderTickEvents sec b prev).1 := by
  cases sec
  case Balance =>
    by_cases h : prev = b <;>
      simp [renderTickEvents, rendersWhileSectionLocked,
        rendersWhileSectionLockedAux, rendersAtAll, h]
  all_goals rfl

/-- All Balance ticks whose store value equals the current `prev_value`
draw nothing and leave `prev_value` unchanged, along a whole run. -/
theorem renderRun_balance_one (ticks : List (DisplaySection × Nat))
    (h : ∀ p ∈ ticks, p = (DisplaySection.Balance, 1)) :
    (∀ d ∈ (renderRun 1 ticks).1, d = []) ∧ (renderRun 1 ticks).2 = 1 := by
  induction ticks with
  | nil => exact ⟨fun d hd => absurd hd (List.not_mem_nil d), rfl⟩
  | cons p rest ih =>
    have hp : p = (DisplaySection.Balance, 1) := h p (List.mem_cons_self p rest)
    subst hp
    obtain ⟨ih1, ih2⟩ := ih fun q hq => h q (List.mem_cons_of_mem _ hq)
    have hstep : renderRun 1 ((DisplaySection.Balance, 1) :: rest) =
        ([] :: (renderRun 1 rest).1, (renderRun 1 rest).2) := rfl
    rw [hstep]
    refine ⟨fun d hd => ?_, ih2⟩
    rcases List.mem_cons.mp hd with h1 | h2
    · exact h1
    · exact ih1 d h2

/-- Claim C10: the render loop's remembered last-drawn balance starts at
the attainable value `1`, not an impossible sentinel; hence in any run
whose every tick observes the Balance section with balance exactly `1`,
no tick ever issues a draw call — even the very first draw is skipped. -/
theorem balance_prev_init_one (ticks : List (DisplaySection × Nat))
    (h : ∀ p ∈ ticks, p = (DisplaySection.Balance, 1)) :
    prev_value_init = 1 ∧
    ∀ d ∈ (renderRun prev_value_init ticks).1, d = [] :=
  ⟨rfl, (renderRun_balance_one ticks h).1⟩

/-- Witness for C10: a two-tick run at balance 1 draws nothing. -/
theorem balance_prev_init_one_witness :
    prev_value_init = 1 ∧
    ∀ d ∈ (renderRun prev_value_init
      [(DisplaySection.Balance, 1), (DisplaySection.Balance, 1)]).1, d = [] :=
  balance_prev_init_one [(.Balance, 1), (.Balance, 1)] (by decide)
